/-
Verification development for the Oracle V7 tropical-cyclone solver.

The definitions below are shallow embeddings of the Python source:
  - core_solver.py            (spectral operators, advection, projection)
  - world_woe_main_V7_beta_plane.py  (main loop, steering, hysteresis, sanity)
  - data_interface.py         (reanalysis fetch and revert logic)

Real-valued quantities are modelled over the reals; array-valued state whose
claims are purely about control flow (fetch revert, sanity-check cadence,
interpolation-order selection) is modelled over the rationals so that concrete
runs evaluate by decide.  Floating point round-off is not modelled: arithmetic
is exact.
-/
import Mathlib

open Real

noncomputable section

-- =========================================================================
-- DEFINITIONS
-- =========================================================================

-- ---------- characteristic scales (world_woe_main_V7_beta_plane.py:843-849)

/-- Characteristic velocity scale in m/s, `self.U_CHAR = 25.0` (line 847). -/
def U_CHAR : ℝ := 25.0

/-- Characteristic length scale in metres,
`self.L_CHAR = self.physical_domain_x_km * 1000.0` with
`physical_domain_x_km = 2000.0` (lines 843-846). -/
def L_CHAR : ℝ := 2000.0 * 1000.0

/-- Characteristic time scale, `self.T_CHAR = self.L_CHAR / self.U_CHAR`
(line 848); numerically 80 000 s. -/
def T_CHAR : ℝ := L_CHAR / U_CHAR

/-- Dimensionless solver timestep, `self.dt_solver = 3e-5` (line 849). -/
def dt_solver : ℝ := 3e-5

-- ---------- Coriolis rotation (world_woe_main_V7_beta_plane.py:2414-2420)

/-- Coriolis half-angle, `alpha = 0.5 * f_nd * self.dt_solver` where
`f_nd = self.f0 * self.T_CHAR` (lines 2415-2416).  `f0` and the scales are
passed as arguments. -/
def coriolisAlpha (f0 tChar dtSolver : ℝ) : ℝ := 0.5 * (f0 * tChar) * dtSolver

/-- Updated u-component of the Cayley-transform Coriolis rotation,
`self.u = ((1.0 - alpha**2) * u_old + 2.0 * alpha * v_old) / D` with
`D = 1.0 + alpha**2` (lines 2417-2419). -/
def coriolisU (a u v : ℝ) : ℝ := ((1 - a ^ 2) * u + 2 * a * v) / (1 + a ^ 2)

/-- Updated v-component of the Coriolis rotation,
`self.v = (-2.0 * alpha * u_old + (1.0 - alpha**2) * v_old) / D`
(line 2420). -/
def coriolisV (a u v : ℝ) : ℝ := (-(2 * a) * u + (1 - a ^ 2) * v) / (1 + a ^ 2)

-- ---------- continuous position integration (lines 3127-3146)

/-- Time covered by one fine position-integration interval,
`dt_100frames = 100 * self.dt_solver * self.T_CHAR` (line 3135);
numerically 240 s. -/
def dt_100frames : ℝ := 100 * dt_solver * T_CHAR

/-- Raw latitude increment, `dlat = v_steer * dt_100frames / 111000.0`
(line 3136). -/
def dlatRaw (vSteer : ℝ) : ℝ := vSteer * dt_100frames / 111000.0

/-- Raw longitude increment,
`dlon = u_steer * dt_100frames / (111000.0 * np.cos(np.radians(lat)))`
(line 3137). -/
def dlonRaw (uSteer lat : ℝ) : ℝ :=
  uSteer * dt_100frames / (111000.0 * Real.cos (lat * Real.pi / 180))

/-- Position-sanity stage (lines 3140-3143): only when `|dlat| > 5` or
`|dlon| > 5` are both increments clipped to `[-1, 1]` by `np.clip`; otherwise
they pass through unchanged. -/
def positionIncrement (uSteer vSteer lat : ℝ) : ℝ × ℝ :=
  let dlat := dlatRaw vSteer
  let dlon := dlonRaw uSteer lat
  if 5 < |dlat| ∨ 5 < |dlon| then
    (max (-1) (min 1 dlat), max (-1) (min 1 dlon))
  else
    (dlat, dlon)

/-- Fine-interval position update (lines 3127-3146): increments are applied
only when some cached steering component exceeds 0.01 in magnitude
(line 3131). -/
def positionStep (uSteer vSteer lat lon : ℝ) : ℝ × ℝ :=
  if 0.01 < |uSteer| ∨ 0.01 < |vSteer| then
    let d := positionIncrement uSteer vSteer lat
    (lat + d.1, lon + d.2)
  else
    (lat, lon)

-- ---------- H3+ hysteresis (world_woe_main_V7_beta_plane.py:2808-2831)

/-- Hysteretic H3+ state update (lines 2819-2828): when `h3_boost_enabled`,
activate at `max_wind_kts >= 96`, deactivate at `max_wind_kts < 83`, keep the
previous state in between; when the boost is disabled the state is forced
inactive. -/
def h3NextState (h3BoostEnabled prev : Bool) (maxWindKts : ℝ) : Bool :=
  if h3BoostEnabled then
    if 96 ≤ maxWindKts then true
    else if maxWindKts < 83 then false
    else prev
  else false

-- ---------- steering calculation (world_woe_main_V7_beta_plane.py:2728-3107)

/-- Inputs of one coarse-cadence steering calculation: the ERA5 estimate
(annular or domain-mean, in m/s), the configuration flags and parameters read
via `config.get`/`getattr`, and the relevant simulation state (previous H3+
mode, last max wind, nest center, cached direction). -/
structure SteerInputs where
  u_era5 : ℝ
  v_era5 : ℝ
  steering_multiplier : ℝ
  beta_drift_enabled : Bool
  beta_drift_speed : ℝ
  beta_drift_lat_scale : ℝ
  h3_boost_enabled : Bool
  prev_h3_mode : Bool
  last_max_wind_ms : ℝ
  confidence_weighting_enabled : Bool
  steer_ref : ℝ
  basin_damping_enabled : Bool
  longitude_scaling_enabled : Bool
  intensity_scaling_enabled : Bool
  beta_land_suppression_enabled : Bool
  land_frac_center : Option ℝ
  gulf_westward_cap_enabled : Bool
  gulf_westward_cap_ms : ℝ
  recurve_assist_enabled : Bool
  recurve_lon_start : ℝ
  recurve_lon_full : ℝ
  recurve_max_nudge_ms : ℝ
  recurve_lat_baseline : ℝ
  recurve_lat_emergency : ℝ
  steering_floor_enabled : Bool
  steering_floor_ms : ℝ
  cached_steer_direction : ℝ × ℝ
  current_center_lat : ℝ
  current_center_lon : ℝ

/-- Steering u initialised from ERA5 after the multiplier,
`u_era5 *= steering_mult; u_steer = u_era5` (lines 2764-2772). -/
def uSteerInit (c : SteerInputs) : ℝ := c.u_era5 * c.steering_multiplier

/-- Steering v initialised from ERA5 after the multiplier (lines 2764-2773). -/
def vSteerInit (c : SteerInputs) : ℝ := c.v_era5 * c.steering_multiplier

/-- ERA5 speed used for confidence weighting,
`era5_speed = np.sqrt(u_era5**2 + v_era5**2)` (line 2769). -/
def era5Speed (c : SteerInputs) : ℝ :=
  Real.sqrt (uSteerInit c ^ 2 + vSteerInit c ^ 2)

/-- Latitude used inside the beta block:
`lat = abs(self.current_center_lat)` clipped to [0, 60]
(lines 2779, 2783). -/
def latAbsClip (c : SteerInputs) : ℝ :=
  min 60 (max 0 |c.current_center_lat|)

/-- Latitude scaling of the beta magnitude,
`lat_factor = 1.0 + lat_scale * max(0, lat - 15)` (line 2787). -/
def latFactor (c : SteerInputs) : ℝ :=
  1 + c.beta_drift_lat_scale * max 0 (latAbsClip c - 15)

/-- Max wind converted to knots, `max_wind_kts = max_wind_ms * 1.944`
(line 2809). -/
def maxWindKts (c : SteerInputs) : ℝ := c.last_max_wind_ms * 1.944

/-- H3+ mode after the hysteresis update of this steering step
(lines 2810-2832); `is_major_hurricane = h3_mode_active`. -/
def h3Active (c : SteerInputs) : Bool :=
  h3NextState c.h3_boost_enabled c.prev_h3_mode (maxWindKts c)

/-- Confidence weight (lines 2852-2862): auto-disabled for H3+ storms; when
active, `beta_weight = steer_ref / (steer_ref + era5_speed)`. -/
def betaWeightUsed (c : SteerInputs) : ℝ :=
  if c.confidence_weighting_enabled && ! h3Active c then
    c.steer_ref / (c.steer_ref + era5Speed c)
  else 1

/-- Basin damping factor (lines 2876-2892): auto-disabled for H3+ storms;
0.5 in the Gulf/Caribbean box, ramp on [-80, -75), else 1. -/
def basinFactorUsed (c : SteerInputs) : ℝ :=
  if c.basin_damping_enabled && ! h3Active c then
    if c.current_center_lon < -80 ∧ 10 < latAbsClip c ∧ latAbsClip c < 30 then
      0.5
    else if -80 ≤ c.current_center_lon ∧ c.current_center_lon < -75 ∧
        10 < latAbsClip c ∧ latAbsClip c < 30 then
      0.5 + 0.5 * ((c.current_center_lon + 80) / 5)
    else 1
  else 1

/-- Longitude scaling (lines 2895-2898): west of -80°,
`lon_factor = max(0.5, 1.0 - ((-80 - lon) / 30))`. -/
def lonFactorUsed (c : SteerInputs) : ℝ :=
  if c.longitude_scaling_enabled then
    if c.current_center_lon < -80 then
      max 0.5 (1 - ((-80 - c.current_center_lon) / 30))
    else 1
  else 1

/-- Intensity scaling (lines 2901-2905):
`intensity_factor = np.clip(np.sqrt(max_wind_ms / 30.0), 0.7, 1.5)` when
enabled.  Note the source computes it from `_last_max_wind_ms` irrespective
of H3+ mode. -/
def intensityFactorUsed (c : SteerInputs) : ℝ :=
  if c.intensity_scaling_enabled then
    min 1.5 (max 0.7 (Real.sqrt (c.last_max_wind_ms / 30)))
  else 1

/-- Combined damping, `combined_damping = min(beta_weight, basin_factor)`
(line 2911). -/
def combinedDamping (c : SteerInputs) : ℝ :=
  min (betaWeightUsed c) (basinFactorUsed c)

/-- Beta magnitude before the hard cap (lines 2787-2788, 2834-2837, 2912):
`beta_speed = base * lat_factor`, multiplied by 1.4 in H3+ mode, then by
`lon_factor * intensity_factor * combined_damping`. -/
def betaSpeedPreCap (c : SteerInputs) : ℝ :=
  (c.beta_drift_speed * latFactor c) * (if h3Active c then 1.4 else 1) *
    lonFactorUsed c * intensityFactorUsed c * combinedDamping c

/-- Hard beta cap at 4.0 m/s (lines 2922-2924). -/
def betaSpeedCapped (c : SteerInputs) : ℝ :=
  if 4 < betaSpeedPreCap c then 4 else betaSpeedPreCap c

/-- Beta land suppression (lines 2956-2981): 0 over land
(land fraction > 0.5), a clipped ramp for coastal fractions in (0.1, 0.5],
1 over ocean or when no land data is available. -/
def betaLandScale (c : SteerInputs) : ℝ :=
  if c.beta_land_suppression_enabled then
    match c.land_frac_center with
    | none => 1
    | some lf =>
        if 0.5 < lf then 0
        else if 0.1 < lf then max 0 (min 1 (1 - (lf - 0.1) / 0.4))
        else 1
  else 1

/-- Final beta magnitude, `beta_speed *= beta_land_scale` after the cap
(line 2984). -/
def betaSpeedFinal (c : SteerInputs) : ℝ :=
  betaSpeedCapped c * betaLandScale c

/-- Beta drift angle in radians: 120° from east in the northern hemisphere,
240° in the southern (lines 2936-2942). -/
def betaAngleRad (c : SteerInputs) : ℝ :=
  if 0 ≤ c.current_center_lat then 120 * Real.pi / 180
  else 240 * Real.pi / 180

/-- Steering u after the beta contribution,
`u_steer += beta_speed * np.cos(beta_angle)` (lines 2986-2988). -/
def uAfterBeta (c : SteerInputs) : ℝ :=
  uSteerInit c + betaSpeedFinal c * Real.cos (betaAngleRad c)

/-- Steering v after the beta contribution (lines 2987-2989). -/
def vAfterBeta (c : SteerInputs) : ℝ :=
  vSteerInit c + betaSpeedFinal c * Real.sin (betaAngleRad c)

/-- Gulf box check, `in_gulf = lon < -85 and 20 < lat < 30` (line 3027). -/
def inGulf (c : SteerInputs) : Prop :=
  c.current_center_lon < -85 ∧ 20 < latAbsClip c ∧ latAbsClip c < 30

instance (c : SteerInputs) : Decidable (inGulf c) := by
  unfold inGulf
  infer_instance

/-- Gulf westward cap (lines 3030-3034): inside the Gulf box, with the cap
enabled, clamp `u_steer` up to the cap value when it is below it. -/
def uAfterGulfCap (c : SteerInputs) : ℝ :=
  if inGulf c ∧ c.gulf_westward_cap_enabled = true ∧
      uAfterBeta c < c.gulf_westward_cap_ms then
    c.gulf_westward_cap_ms
  else uAfterBeta c

/-- Recurve west factor (lines 3046-3047): 0 at the start longitude, 1 at
the full longitude, clipped to [0, 1]. -/
def recurveWestFactor (c : SteerInputs) : ℝ :=
  max 0 (min 1 ((c.recurve_lon_start - c.current_center_lon) /
    (c.recurve_lon_start - c.recurve_lon_full)))

/-- Recurve latitude factor (lines 3051-3052): 0 at the baseline latitude,
1 at the emergency latitude, clipped to [0, 1]. -/
def recurveLatFactor (c : SteerInputs) : ℝ :=
  max 0 (min 1 ((c.recurve_lat_baseline - latAbsClip c) /
    (c.recurve_lat_baseline - c.recurve_lat_emergency)))

/-- Recurve assist (lines 3044-3059): in the Gulf box west of the start
longitude, add the northward nudge
`west_factor * max_nudge * (1 + lat_factor)`. -/
def vAfterRecurve (c : SteerInputs) : ℝ :=
  if c.recurve_assist_enabled = true ∧ inGulf c ∧
      c.current_center_lon < c.recurve_lon_start then
    vAfterBeta c + recurveWestFactor c * c.recurve_max_nudge_ms *
      (1 + recurveLatFactor c)
  else vAfterBeta c

/-- Steering u entering the floor stage: the whole beta/cap/recurve block
(lines 2777-3071) runs only when `beta_drift_enabled`; otherwise `u_steer`
is still the multiplied ERA5 value. -/
def preFloorU (c : SteerInputs) : ℝ :=
  if c.beta_drift_enabled then uAfterGulfCap c else uSteerInit c

/-- Steering v entering the floor stage (see `preFloorU`). -/
def preFloorV (c : SteerInputs) : ℝ :=
  if c.beta_drift_enabled then vAfterRecurve c else vSteerInit c

/-- Steering speed before the floor,
`steer_speed_ms = np.sqrt(u_steer**2 + v_steer**2)` (line 3082). -/
def preFloorSpeed (c : SteerInputs) : ℝ :=
  Real.sqrt (preFloorU c ^ 2 + preFloorV c ^ 2)

/-- Steering floor with direction preservation (lines 3079-3097) and the
final cached steering vector `(_cached_u_steer, _cached_v_steer)`
(lines 3106-3107): when the floor is enabled and the speed is below it,
rescale to the floor along the current direction if it is well defined
(speed > 0.1), else apply the floor along the last cached direction;
otherwise cache the vector unchanged. -/
def steeringCached (c : SteerInputs) : ℝ × ℝ :=
  if c.steering_floor_enabled = true ∧ preFloorSpeed c < c.steering_floor_ms
  then
    if 0.1 < preFloorSpeed c then
      (preFloorU c * (c.steering_floor_ms / preFloorSpeed c),
       preFloorV c * (c.steering_floor_ms / preFloorSpeed c))
    else
      (c.steering_floor_ms * c.cached_steer_direction.1,
       c.steering_floor_ms * c.cached_steer_direction.2)
  else (preFloorU c, preFloorV c)

/-- Concrete steering inputs for an H3+ storm: max wind 120 m/s (233.28 kt),
over open ocean at 15°N 70°W, with all default-on options enabled and
`beta_drift_speed = 1` m/s. -/
def steerInputsH3Ex : SteerInputs :=
  { u_era5 := 0, v_era5 := 0, steering_multiplier := 1,
    beta_drift_enabled := true, beta_drift_speed := 1,
    beta_drift_lat_scale := 0.05,
    h3_boost_enabled := true, prev_h3_mode := false,
    last_max_wind_ms := 120,
    confidence_weighting_enabled := true, steer_ref := 6,
    basin_damping_enabled := true, longitude_scaling_enabled := true,
    intensity_scaling_enabled := true,
    beta_land_suppression_enabled := true, land_frac_center := none,
    gulf_westward_cap_enabled := true, gulf_westward_cap_ms := -3,
    recurve_assist_enabled := true, recurve_lon_start := -88,
    recurve_lon_full := -94, recurve_max_nudge_ms := 3,
    recurve_lat_baseline := 26, recurve_lat_emergency := 22,
    steering_floor_enabled := true, steering_floor_ms := 3,
    cached_steer_direction := (1, 0),
    current_center_lat := 15, current_center_lon := -70 }

/-- Concrete steering inputs with beta drift disabled: storm inside the Gulf
box (25°N, 90°W) with strongly westward ERA5 steering u = -10 m/s, below the
-3 m/s Gulf cap; all other safety options at their defaults. -/
def steerInputsGulfEx : SteerInputs :=
  { u_era5 := -10, v_era5 := 0, steering_multiplier := 1,
    beta_drift_enabled := false, beta_drift_speed := 2.5,
    beta_drift_lat_scale := 0.05,
    h3_boost_enabled := true, prev_h3_mode := false,
    last_max_wind_ms := 30,
    confidence_weighting_enabled := true, steer_ref := 6,
    basin_damping_enabled := true, longitude_scaling_enabled := true,
    intensity_scaling_enabled := true,
    beta_land_suppression_enabled := true, land_frac_center := none,
    gulf_westward_cap_enabled := true, gulf_westward_cap_ms := -3,
    recurve_assist_enabled := true, recurve_lon_start := -88,
    recurve_lon_full := -94, recurve_max_nudge_ms := 3,
    recurve_lat_baseline := 26, recurve_lat_emergency := 22,
    steering_floor_enabled := true, steering_floor_ms := 3,
    cached_steer_direction := (1, 0),
    current_center_lat := 25, current_center_lon := -90 }

end

noncomputable section

-- ---------- spectral operators (core_solver.py:42-69, 212-343)

/-- Complex exponential of a full turn scaled by s, exp(2·pi·i·s).  The
separable DFT kernels below are products of these per-axis factors, which is
the same kernel exp(-2·pi·i·(j1 k1/n1 + j2 k2/n2 + j3 k3/n3)) that
`fft.fftn` applies, written as a product of the per-axis phases. -/
def cexp2pi (s : ℝ) : ℂ :=
  Complex.exp (((2 * Real.pi * s : ℝ) : ℂ) * Complex.I)

/-- Sample frequencies of `xp.fft.fftfreq(n, d)` (core_solver.py:45-47):
index k maps to k/(n·d) for k below the Nyquist split (n+1)/2 and to
(k − n)/(n·d) above it.  Note the source does NOT multiply by 2·pi. -/
def fftfreq (n : ℕ) (d : ℝ) (k : ℕ) : ℝ :=
  (if k < (n + 1) / 2 then (k : ℝ) else (k : ℝ) - (n : ℝ)) / ((n : ℝ) * d)

/-- Forward unnormalised 3D DFT of `fft.fftn` on an nx × ny × nz grid. -/
def fftn (nx ny nz : ℕ) (f : Fin nx → Fin ny → Fin nz → ℂ)
    (k1 : Fin nx) (k2 : Fin ny) (k3 : Fin nz) : ℂ :=
  ∑ j1 : Fin nx, ∑ j2 : Fin ny, ∑ j3 : Fin nz,
    f j1 j2 j3 * cexp2pi (-(((j1 : ℕ) * (k1 : ℕ) : ℕ) : ℝ) / (nx : ℝ))
      * cexp2pi (-(((j2 : ℕ) * (k2 : ℕ) : ℕ) : ℝ) / (ny : ℝ))
      * cexp2pi (-(((j3 : ℕ) * (k3 : ℕ) : ℕ) : ℝ) / (nz : ℝ))

/-- Inverse normalised 3D DFT of `fft.ifftn`. -/
def ifftn (nx ny nz : ℕ) (F : Fin nx → Fin ny → Fin nz → ℂ)
    (j1 : Fin nx) (j2 : Fin ny) (j3 : Fin nz) : ℂ :=
  (∑ k1 : Fin nx, ∑ k2 : Fin ny, ∑ k3 : Fin nz,
    F k1 k2 k3 * cexp2pi ((((j1 : ℕ) * (k1 : ℕ) : ℕ) : ℝ) / (nx : ℝ))
      * cexp2pi ((((j2 : ℕ) * (k2 : ℕ) : ℕ) : ℝ) / (ny : ℝ))
      * cexp2pi ((((j3 : ℕ) * (k3 : ℕ) : ℕ) : ℝ) / (nz : ℝ)))
    / ((nx * ny * nz : ℕ) : ℂ)

/-- Spectral x-gradient of `CoreSolver.gradient_x` (core_solver.py:59-60):
the real part of IFFT(i · kx · FFT(f)) with kx = fftfreq(nx, dx). -/
def gradient_x (nx ny nz : ℕ) (dx : ℝ) (f : Fin nx → Fin ny → Fin nz → ℝ)
    (a : Fin nx) (b : Fin ny) (c : Fin nz) : ℝ :=
  (ifftn nx ny nz
    (fun k1 k2 k3 => Complex.I * ((fftfreq nx dx (k1 : ℕ) : ℝ) : ℂ) *
      fftn nx ny nz (fun p q r => ((f p q r : ℝ) : ℂ)) k1 k2 k3)
    a b c).re

/-- Spectral y-gradient of `CoreSolver.gradient_y` (core_solver.py:62-63). -/
def gradient_y (nx ny nz : ℕ) (dy : ℝ) (f : Fin nx → Fin ny → Fin nz → ℝ)
    (a : Fin nx) (b : Fin ny) (c : Fin nz) : ℝ :=
  (ifftn nx ny nz
    (fun k1 k2 k3 => Complex.I * ((fftfreq ny dy (k2 : ℕ) : ℝ) : ℂ) *
      fftn nx ny nz (fun p q r => ((f p q r : ℝ) : ℂ)) k1 k2 k3)
    a b c).re

/-- Spectral z-gradient of `CoreSolver.gradient_z` (core_solver.py:65-66). -/
def gradient_z (nx ny nz : ℕ) (dz : ℝ) (f : Fin nx → Fin ny → Fin nz → ℝ)
    (a : Fin nx) (b : Fin ny) (c : Fin nz) : ℝ :=
  (ifftn nx ny nz
    (fun k1 k2 k3 => Complex.I * ((fftfreq nz dz (k3 : ℕ) : ℝ) : ℂ) *
      fftn nx ny nz (fun p q r => ((f p q r : ℝ) : ℂ)) k1 k2 k3)
    a b c).re

/-- Squared-wavenumber array `self.k_squared` (core_solver.py:48-50). -/
def k_squared (nx ny nz : ℕ) (dx dy dz : ℝ)
    (k1 : Fin nx) (k2 : Fin ny) (k3 : Fin nz) : ℝ :=
  fftfreq nx dx (k1 : ℕ) ^ 2 + fftfreq ny dy (k2 : ℕ) ^ 2 +
    fftfreq nz dz (k3 : ℕ) ^ 2

/-- Spectral Laplacian of `CoreSolver.laplacian` (core_solver.py:68-69):
the real part of IFFT(−K² · FFT(f)). -/
def laplacianF (nx ny nz : ℕ) (dx dy dz : ℝ)
    (f : Fin nx → Fin ny → Fin nz → ℝ)
    (a : Fin nx) (b : Fin ny) (c : Fin nz) : ℝ :=
  (ifftn nx ny nz
    (fun k1 k2 k3 => -((k_squared nx ny nz dx dy dz k1 k2 k3 : ℝ) : ℂ) *
      fftn nx ny nz (fun p q r => ((f p q r : ℝ) : ℂ)) k1 k2 k3)
    a b c).re

/-- Modelled from the spec for the refinement comparison of claim C2: the
spec derives wavenumbers from `2π·fftfreq` (spec §4.2), so the spec
wavenumber is 2·pi times the source wavenumber. -/
def specFreq (n : ℕ) (d : ℝ) (k : ℕ) : ℝ := 2 * Real.pi * fftfreq n d k

/-- Modelled from the spec for the refinement comparison of claim C2: the
spec gradient IFFT(i·k_x·FFT(f)).re with k_x = 2π·fftfreq(N_x, dx). -/
def specGradient_x (nx ny nz : ℕ) (dx : ℝ)
    (f : Fin nx → Fin ny → Fin nz → ℝ)
    (a : Fin nx) (b : Fin ny) (c : Fin nz) : ℝ :=
  (ifftn nx ny nz
    (fun k1 k2 k3 => Complex.I * ((specFreq nx dx (k1 : ℕ) : ℝ) : ℂ) *
      fftn nx ny nz (fun p q r => ((f p q r : ℝ) : ℂ)) k1 k2 k3)
    a b c).re

/-- Modelled from the spec for the refinement comparison of claim C2: the
spec Laplacian IFFT(−K²·FFT(f)).re with K² built from 2π-scaled
wavenumbers. -/
def specLaplacian (nx ny nz : ℕ) (dx dy dz : ℝ)
    (f : Fin nx → Fin ny → Fin nz → ℝ)
    (a : Fin nx) (b : Fin ny) (c : Fin nz) : ℝ :=
  (ifftn nx ny nz
    (fun k1 k2 k3 => -(((specFreq nx dx (k1 : ℕ) ^ 2 +
        specFreq ny dy (k2 : ℕ) ^ 2 + specFreq nz dz (k3 : ℕ) ^ 2 : ℝ)) : ℂ) *
      fftn nx ny nz (fun p q r => ((f p q r : ℝ) : ℂ)) k1 k2 k3)
    a b c).re

/-- Kronecker-delta test field on the 4 × 1 × 1 grid (1 at the origin). -/
def deltaField : Fin 4 → Fin 1 → Fin 1 → ℝ :=
  fun a _ _ => if a = 0 then 1 else 0

-- ---------- pressure projection with governor (core_solver.py:212-343)

/-- Domain mean `xp.mean(u)` (core_solver.py:234-236). -/
def meanF (nx ny nz : ℕ) (f : Fin nx → Fin ny → Fin nz → ℝ) : ℝ :=
  (∑ j1 : Fin nx, ∑ j2 : Fin ny, ∑ j3 : Fin nz, f j1 j2 j3) /
    ((nx * ny * nz : ℕ) : ℝ)

/-- Fluctuation field after mean subtraction, `u -= u_mean`
(core_solver.py:238-240). -/
def fluct (nx ny nz : ℕ) (f : Fin nx → Fin ny → Fin nz → ℝ)
    (a : Fin nx) (b : Fin ny) (c : Fin nz) : ℝ :=
  f a b c - meanF nx ny nz f

/-- Divergence of the fluctuation velocity (core_solver.py:243). -/
def divergenceFluct (nx ny nz : ℕ) (dx dy dz : ℝ)
    (u v w : Fin nx → Fin ny → Fin nz → ℝ)
    (a : Fin nx) (b : Fin ny) (c : Fin nz) : ℝ :=
  gradient_x nx ny nz dx (fluct nx ny nz u) a b c +
    gradient_y nx ny nz dy (fluct nx ny nz v) a b c +
    gradient_z nx ny nz dz (fluct nx ny nz w) a b c

/-- Transformed divergence with the global mass-conservation fix
`div_hat[0,0,0] = 0` (core_solver.py:246-249). -/
def divHatZeroed (nx ny nz : ℕ) (dx dy dz : ℝ)
    (u v w : Fin nx → Fin ny → Fin nz → ℝ)
    (k1 : Fin nx) (k2 : Fin ny) (k3 : Fin nz) : ℂ :=
  if (k1 : ℕ) = 0 ∧ (k2 : ℕ) = 0 ∧ (k3 : ℕ) = 0 then 0
  else fftn nx ny nz
    (fun a b c => ((divergenceFluct nx ny nz dx dy dz u v w a b c : ℝ) : ℂ))
    k1 k2 k3

/-- Safe squared wavenumber, `k_squared_safe[0,0,0] = 1.0`
(core_solver.py:252-253). -/
def kSquaredSafe (nx ny nz : ℕ) (dx dy dz : ℝ)
    (k1 : Fin nx) (k2 : Fin ny) (k3 : Fin nz) : ℝ :=
  if (k1 : ℕ) = 0 ∧ (k2 : ℕ) = 0 ∧ (k3 : ℕ) = 0 then 1
  else k_squared nx ny nz dx dy dz k1 k2 k3

/-- Pressure spectrum `p_hat = -div_hat / k_squared_safe` with the gauge
`p_hat[0,0,0] = 0` (core_solver.py:255-258). -/
def pHatField (nx ny nz : ℕ) (dx dy dz : ℝ)
    (u v w : Fin nx → Fin ny → Fin nz → ℝ)
    (k1 : Fin nx) (k2 : Fin ny) (k3 : Fin nz) : ℂ :=
  if (k1 : ℕ) = 0 ∧ (k2 : ℕ) = 0 ∧ (k3 : ℕ) = 0 then 0
  else -(divHatZeroed nx ny nz dx dy dz u v w k1 k2 k3) /
    ((kSquaredSafe nx ny nz dx dy dz k1 k2 k3 : ℝ) : ℂ)

/-- Physical-space pressure `p = fft.ifftn(p_hat).real`
(core_solver.py:261). -/
def pressureField (nx ny nz : ℕ) (dx dy dz : ℝ)
    (u v w : Fin nx → Fin ny → Fin nz → ℝ)
    (a : Fin nx) (b : Fin ny) (c : Fin nz) : ℝ :=
  (ifftn nx ny nz (pHatField nx ny nz dx dy dz u v w) a b c).re

/-- Pressure-corrected u,
`u -= damping_factor_h * inv_rho * gradient_x(p)` (core_solver.py:264-266). -/
def corrU (nx ny nz : ℕ) (dx dy dz rho dh : ℝ)
    (u v w : Fin nx → Fin ny → Fin nz → ℝ)
    (a : Fin nx) (b : Fin ny) (c : Fin nz) : ℝ :=
  fluct nx ny nz u a b c -
    dh * (1 / rho) *
      gradient_x nx ny nz dx (pressureField nx ny nz dx dy dz u v w) a b c

/-- Pressure-corrected v (core_solver.py:267). -/
def corrV (nx ny nz : ℕ) (dx dy dz rho dh : ℝ)
    (u v w : Fin nx → Fin ny → Fin nz → ℝ)
    (a : Fin nx) (b : Fin ny) (c : Fin nz) : ℝ :=
  fluct nx ny nz v a b c -
    dh * (1 / rho) *
      gradient_y nx ny nz dy (pressureField nx ny nz dx dy dz u v w) a b c

/-- Pressure-corrected w (core_solver.py:268). -/
def corrW (nx ny nz : ℕ) (dx dy dz rho dw : ℝ)
    (u v w : Fin nx → Fin ny → Fin nz → ℝ)
    (a : Fin nx) (b : Fin ny) (c : Fin nz) : ℝ :=
  fluct nx ny nz w a b c -
    dw * (1 / rho) *
      gradient_z nx ny nz dz (pressureField nx ny nz dx dy dz u v w) a b c

/-- Per-cell 3D velocity magnitude
`xp.sqrt(u**2 + v**2 + w**2)` (core_solver.py:278). -/
def velMag (nx ny nz : ℕ) (u v w : Fin nx → Fin ny → Fin nz → ℝ)
    (a : Fin nx) (b : Fin ny) (c : Fin nz) : ℝ :=
  Real.sqrt (u a b c ^ 2 + v a b c ^ 2 + w a b c ^ 2)

/-- Grid maximum `xp.max(...)` of a field; the grid is nonempty. -/
def maxOver (nx ny nz : ℕ) [NeZero nx] [NeZero ny] [NeZero nz]
    (g : Fin nx → Fin ny → Fin nz → ℝ) : ℝ :=
  Finset.univ.sup' Finset.univ_nonempty
    (fun p : Fin nx × Fin ny × Fin nz => g p.1 p.2.1 p.2.2)

/-- Peak physical spin `max_spin_ms = float(xp.max(mag)) * U_CHAR`
(core_solver.py:279). -/
def maxSpinMs (nx ny nz : ℕ) [NeZero nx] [NeZero ny] [NeZero nz] (uc : ℝ)
    (u v w : Fin nx → Fin ny → Fin nz → ℝ) : ℝ :=
  maxOver nx ny nz (velMag nx ny nz u v w) * uc

/-- Progressive damping factor
`1.0 - min(0.35, excess_ratio * 0.7)` with
`excess_ratio = (m - 85)/85` (core_solver.py:282-286). -/
def emergencyDamping (m : ℝ) : ℝ := 1 - min 0.35 ((m - 85) / 85 * 0.7)

/-- Velocity u after the soft damping stage `u *= emergency_damping`
(core_solver.py:288). -/
def dampedU (nx ny nz : ℕ) [NeZero nx] [NeZero ny] [NeZero nz] (uc : ℝ)
    (u v w : Fin nx → Fin ny → Fin nz → ℝ)
    (a : Fin nx) (b : Fin ny) (c : Fin nz) : ℝ :=
  emergencyDamping (maxSpinMs nx ny nz uc u v w) * u a b c

/-- Velocity v after the soft damping stage (core_solver.py:289). -/
def dampedV (nx ny nz : ℕ) [NeZero nx] [NeZero ny] [NeZero nz] (uc : ℝ)
    (u v w : Fin nx → Fin ny → Fin nz → ℝ)
    (a : Fin nx) (b : Fin ny) (c : Fin nz) : ℝ :=
  emergencyDamping (maxSpinMs nx ny nz uc u v w) * v a b c

/-- Velocity w after the soft damping stage (core_solver.py:290). -/
def dampedW (nx ny nz : ℕ) [NeZero nx] [NeZero ny] [NeZero nz] (uc : ℝ)
    (u v w : Fin nx → Fin ny → Fin nz → ℝ)
    (a : Fin nx) (b : Fin ny) (c : Fin nz) : ℝ :=
  emergencyDamping (maxSpinMs nx ny nz uc u v w) * w a b c

/-- Per-cell clamping scale of the vector-magnitude clamp,
`xp.where(mag_phys > 95, 95/(mag_phys + 1e-12), 1.0)`
(core_solver.py:296-304). -/
def clampScale (nx ny nz : ℕ) (uc : ℝ)
    (u v w : Fin nx → Fin ny → Fin nz → ℝ)
    (a : Fin nx) (b : Fin ny) (c : Fin nz) : ℝ :=
  if 95 < velMag nx ny nz u v w a b c * uc then
    95 / (velMag nx ny nz u v w a b c * uc + 1e-12)
  else 1

/-- Velocity u after the governor block (core_solver.py:274-312): when the
peak spin exceeds 85 m/s apply the progressive damping; when the damped peak
still exceeds 95 m/s apply the per-cell vector-magnitude clamp.  The source
applies this block unconditionally — no configuration flag is consulted. -/
def governorU (nx ny nz : ℕ) [NeZero nx] [NeZero ny] [NeZero nz] (uc : ℝ)
    (u v w : Fin nx → Fin ny → Fin nz → ℝ) :
    Fin nx → Fin ny → Fin nz → ℝ :=
  if 85 < maxSpinMs nx ny nz uc u v w then
    if 95 < maxSpinMs nx ny nz uc (dampedU nx ny nz uc u v w)
        (dampedV nx ny nz uc u v w) (dampedW nx ny nz uc u v w) then
      fun a b c =>
        clampScale nx ny nz uc (dampedU nx ny nz uc u v w)
            (dampedV nx ny nz uc u v w) (dampedW nx ny nz uc u v w) a b c *
          dampedU nx ny nz uc u v w a b c
    else dampedU nx ny nz uc u v w
  else u

/-- Velocity v after the governor block (see `governorU`). -/
def governorV (nx ny nz : ℕ) [NeZero nx] [NeZero ny] [NeZero nz] (uc : ℝ)
    (u v w : Fin nx → Fin ny → Fin nz → ℝ) :
    Fin nx → Fin ny → Fin nz → ℝ :=
  if 85 < maxSpinMs nx ny nz uc u v w then
    if 95 < maxSpinMs nx ny nz uc (dampedU nx ny nz uc u v w)
        (dampedV nx ny nz uc u v w) (dampedW nx ny nz uc u v w) then
      fun a b c =>
        clampScale nx ny nz uc (dampedU nx ny nz uc u v w)
            (dampedV nx ny nz uc u v w) (dampedW nx ny nz uc u v w) a b c *
          dampedV nx ny nz uc u v w a b c
    else dampedV nx ny nz uc u v w
  else v

/-- Velocity w after the governor block (see `governorU`). -/
def governorW (nx ny nz : ℕ) [NeZero nx] [NeZero ny] [NeZero nz] (uc : ℝ)
    (u v w : Fin nx → Fin ny → Fin nz → ℝ) :
    Fin nx → Fin ny → Fin nz → ℝ :=
  if 85 < maxSpinMs nx ny nz uc u v w then
    if 95 < maxSpinMs nx ny nz uc (dampedU nx ny nz uc u v w)
        (dampedV nx ny nz uc u v w) (dampedW nx ny nz uc u v w) then
      fun a b c =>
        clampScale nx ny nz uc (dampedU nx ny nz uc u v w)
            (dampedV nx ny nz uc u v w) (dampedW nx ny nz uc u v w) a b c *
          dampedW nx ny nz uc u v w a b c
    else dampedW nx ny nz uc u v w
  else w

/-- Returned u of `CoreSolver.project` (core_solver.py:212-343): pressure
correction of the fluctuation, then the governor block, then mean
restoration — the cached steering (dimensionless) when steering injection is
enabled, the subtracted self-mean otherwise. -/
def projectU (nx ny nz : ℕ) [NeZero nx] [NeZero ny] [NeZero nz]
    (dx dy dz rho uc dh dw : ℝ) (steering : Bool) (us vs : ℝ)
    (u v w : Fin nx → Fin ny → Fin nz → ℝ)
    (a : Fin nx) (b : Fin ny) (c : Fin nz) : ℝ :=
  governorU nx ny nz uc (corrU nx ny nz dx dy dz rho dh u v w)
      (corrV nx ny nz dx dy dz rho dh u v w)
      (corrW nx ny nz dx dy dz rho dw u v w) a b c +
    (if steering then us else meanF nx ny nz u)

/-- Returned v of `CoreSolver.project` (see `projectU`). -/
def projectV (nx ny nz : ℕ) [NeZero nx] [NeZero ny] [NeZero nz]
    (dx dy dz rho uc dh dw : ℝ) (steering : Bool) (us vs : ℝ)
    (u v w : Fin nx → Fin ny → Fin nz → ℝ)
    (a : Fin nx) (b : Fin ny) (c : Fin nz) : ℝ :=
  governorV nx ny nz uc (corrU nx ny nz dx dy dz rho dh u v w)
      (corrV nx ny nz dx dy dz rho dh u v w)
      (corrW nx ny nz dx dy dz rho dw u v w) a b c +
    (if steering then vs else meanF nx ny nz v)

/-- Returned w of `CoreSolver.project` (see `projectU`); the w mean is
restored in both restoration modes (core_solver.py:336, 341). -/
def projectW (nx ny nz : ℕ) [NeZero nx] [NeZero ny] [NeZero nz]
    (dx dy dz rho uc dh dw : ℝ) (steering : Bool) (us vs : ℝ)
    (u v w : Fin nx → Fin ny → Fin nz → ℝ)
    (a : Fin nx) (b : Fin ny) (c : Fin nz) : ℝ :=
  governorW nx ny nz uc (corrU nx ny nz dx dy dz rho dh u v w)
      (corrV nx ny nz dx dy dz rho dh u v w)
      (corrW nx ny nz dx dy dz rho dw u v w) a b c +
    meanF nx ny nz w

/-- Antisymmetric test velocity on the 2 × 1 × 1 grid: u = ±6.8
(dimensionless), i.e. ±170 m/s with U_CHAR = 25 — zero mean, zero
divergence. -/
def uFieldEx : Fin 2 → Fin 1 → Fin 1 → ℝ :=
  fun a _ _ => if a = 0 then 34 / 5 else -(34 / 5)

/-- Zero test field on the 2 × 1 × 1 grid. -/
def zeroFieldEx : Fin 2 → Fin 1 → Fin 1 → ℝ := fun _ _ _ => 0

end

-- ---------- data interface fetch revert (data_interface.py:555-583)

/-- State of the DataInterface object: the steering target arrays, the
land-fraction array, the request box, and the bookkeeping frame.  Arrays are
modelled as lists of rationals; equality of lists models bitwise equality of
the arrays. -/
structure DIState where
  u_target : List ℚ
  v_target : List ℚ
  land_fraction : List ℚ
  lon_bounds : ℚ × ℚ
  lat_bounds : ℚ × ℚ
  last_update_frame : ℤ
deriving DecidableEq

/-- Outcome of `self._fetch_era5_data`: either it returns normally with the
object state it produced, or it raises; the `err` payload carries the
(possibly partially mutated) object state at the moment the exception
escapes. -/
inductive FetchOutcome where
  | ok (s : DIState)
  | err (s : DIState)

/-- Embedding of `DataInterface.update_steering_data`
(data_interface.py:555-583): back up `u_target`, `v_target` and
`land_fraction` (`xp.copy`, lines 566-568), set the precision box with
`box_radius = 2.0` (lines 571-573), run the fetch; on success record
`last_update_frame` (line 577), on any exception restore the three backed-up
fields (lines 578-583) and return normally — the exception is not
re-raised. -/
def update_steering_data (fetch : DIState → FetchOutcome)
    (center_lat center_lon : ℚ) (frame : ℤ) (s : DIState) : DIState :=
  let u_last_good := s.u_target
  let v_last_good := s.v_target
  let land_last_good := s.land_fraction
  let s1 : DIState :=
    { s with lon_bounds := (center_lon - 2, center_lon + 2),
             lat_bounds := (center_lat - 2, center_lat + 2) }
  match fetch s1 with
  | .ok s2 => { s2 with last_update_frame := frame }
  | .err s2 =>
      { s2 with u_target := u_last_good, v_target := v_last_good,
                land_fraction := land_last_good }

/-- Concrete DataInterface state used to exercise the revert path. -/
def diStateEx : DIState :=
  { u_target := [1, 2], v_target := [3], land_fraction := [1/2],
    lon_bounds := (0, 0), lat_bounds := (0, 0), last_update_frame := 7 }

/-- Concrete failing fetch: it first overwrites `u_target` and
`land_fraction` (partial mutation) and then raises. -/
def fetchFailEx : DIState → FetchOutcome :=
  fun s => .err { s with u_target := [99], land_fraction := [1] }

-- ---------- sanity check and halt cadence
-- ---------- (world_woe_main_V7_beta_plane.py:2225-2248, 2553-2560, 3170-3176)

/-- Prognostic state relevant to the sanity check: the theta-prime field (a
list of rationals — every rational is finite, so the NaN/Inf branch of the
check, lines 2227-2237, never fires in this model) and the halt flag. -/
structure ThetaSimState where
  theta_prime : List ℚ
  emergency_halted : Bool
deriving DecidableEq

/-- Embedding of `Simulation3D.sanity_check` (lines 2225-2248) for finite
fields: the check passes iff no value exceeds `theta_prime_max_bound` and no
value is below `theta_prime_min_bound` (line 2243 fails on
`max > bound or min < bound`). -/
def sanity_check (thetaMin thetaMax : ℚ) (s : ThetaSimState) : Bool :=
  s.theta_prime.all (fun x => decide (x ≤ thetaMax)) &&
  s.theta_prime.all (fun x => decide (thetaMin ≤ x))

/-- Control skeleton of `Simulation3D.update` (lines 2304-2305, 2553-2560):
if already halted, return unchanged; otherwise run the physics pipeline
(steps 1-15, abstracted as the parameter `phys` acting on the theta-prime
field) and then, only on frames divisible by 100, run the sanity check and
set `emergency_halted` when it fails. -/
def updateSkeleton (phys : ℕ → List ℚ → List ℚ) (thetaMin thetaMax : ℚ)
    (frame : ℕ) (s : ThetaSimState) : ThetaSimState :=
  if s.emergency_halted then s
  else if frame % 100 == 0 && ! sanity_check thetaMin thetaMax
      ⟨phys frame s.theta_prime, false⟩ then
    { theta_prime := phys frame s.theta_prime, emergency_halted := true }
  else
    { theta_prime := phys frame s.theta_prime, emergency_halted := false }

/-- State after the first `n` iterations of `Simulation3D.run`
(lines 3170-3176): `update(0), update(1), ...`.  The `break` on
`emergency_halted` is equivalent to continuing with the no-op updates of a
halted state. -/
def runTrace (phys : ℕ → List ℚ → List ℚ) (thetaMin thetaMax : ℚ)
    (s0 : ThetaSimState) : ℕ → ThetaSimState
  | 0 => s0
  | n + 1 => updateSkeleton phys thetaMin thetaMax n
      (runTrace phys thetaMin thetaMax s0 n)

/-- Concrete physics evolution that drives theta-prime to 100 K on frame 1 —
a frame at which `update` runs no sanity check. -/
def physSpike : ℕ → List ℚ → List ℚ := fun f θ => if f = 1 then [100] else θ

-- ---------- advection interpolation order (core_solver.py:169, main:638)

/-- Attribute state of the `CoreSolver` object relevant to interpolation
order.  `CoreSolver.__init__` (core_solver.py:43-57) sets `kx`, `ky`, `kz`,
`k_squared`, `grid_points` and two diagnostics — it never sets
`advection_order`, and no other statement in the program assigns an attribute
on the solver object, so the attribute is absent (`none`). -/
structure CoreSolverObj where
  advection_order : Option ℕ

/-- Solver object as built by `CoreSolver.__init__`: no `advection_order`
attribute. -/
def coreSolverInitObj : CoreSolverObj := { advection_order := none }

/-- Interpolation order passed to `ndimage.map_coordinates` by
`CoreSolver.advect` (core_solver.py:169):
`getattr(self, "advection_order", 3)` — a lookup on the solver object
itself, falling back to 3 when the attribute is absent. -/
def advectOrderUsed (solver : CoreSolverObj) : ℕ :=
  solver.advection_order.getD 3

/-- Configured advection order as stored by `Simulation3D.__init__`
(world_woe_main_V7_beta_plane.py:638): `self.advection_order =
config['advection_order']` — stored on the Simulation3D object, not on the
solver. -/
def simulationAdvectionOrder (configOrder : ℕ) : ℕ := configOrder

-- =========================================================================
-- THEOREMS
-- =========================================================================

/-- Claim C6: one Coriolis rotation step maps (u, v) to
(((1 - a^2) u + 2 a v)/D, (-2 a u + (1 - a^2) v)/D) with
a = 0.5 * f * T_char * dt_solver and D = 1 + a^2, and for every input (u, v)
and every a the transformation conserves kinetic energy exactly:
u'^2 + v'^2 = u^2 + v^2. -/
theorem coriolis_rotation_conserves_kinetic_energy (f0 tChar dtSolver u v : ℝ) :
    coriolisAlpha f0 tChar dtSolver = 0.5 * (f0 * tChar) * dtSolver ∧
    ∀ a : ℝ, (coriolisU a u v) ^ 2 + (coriolisV a u v) ^ 2 = u ^ 2 + v ^ 2 := by
  refine ⟨rfl, fun a => ?_⟩
  have hD : (1 : ℝ) + a ^ 2 ≠ 0 := by positivity
  unfold coriolisU coriolisV
  field_simp
  ring

/-- Claim C5: the H3+ flag is a two-state hysteretic machine on max wind:
from any previous state it becomes active at >= 96 kt, becomes inactive only
below 83 kt, and keeps its previous state for every wind in [83, 96). -/
theorem h3_hysteresis_machine (prev : Bool) (w : ℝ) :
    (96 ≤ w → h3NextState true prev w = true) ∧
    (w < 83 → h3NextState true prev w = false) ∧
    (83 ≤ w → w < 96 → h3NextState true prev w = prev) := by
  refine ⟨fun h => ?_, fun h => ?_, fun h1 h2 => ?_⟩
  · simp [h3NextState, h]
  · have h96 : ¬ (96 ≤ w) := by linarith
    simp [h3NextState, h96, h]
  · have h96 : ¬ (96 ≤ w) := by linarith
    have h83 : ¬ (w < 83) := by linarith
    simp [h3NextState, h96, h83]

/-- Witness for C5: at 96 kt the machine activates from the inactive state, at
90 kt it keeps the active state, and at 80 kt it deactivates. -/
theorem h3_hysteresis_machine_witness :
    h3NextState true false 96 = true ∧
    h3NextState true true 90 = true ∧
    h3NextState true true 80 = false := by
  refine ⟨(h3_hysteresis_machine false 96).1 (by norm_num),
          (h3_hysteresis_machine true 90).2.2 (by norm_num) (by norm_num),
          (h3_hysteresis_machine true 80).2.1 (by norm_num)⟩

/-- Claim C3: fetch-failure atomicity — whenever the underlying fetch raises
(outcome `err`, with an arbitrary partially mutated object state), the call to
`update_steering_data` returns normally (it is a total function into
`DIState`) and `u_target`, `v_target` and `land_fraction` equal their values
before the call. -/
theorem update_steering_data_reverts_on_fetch_error
    (fetch : DIState → FetchOutcome) (center_lat center_lon : ℚ) (frame : ℤ)
    (s sErr : DIState)
    (h : fetch { s with lon_bounds := (center_lon - 2, center_lon + 2),
                        lat_bounds := (center_lat - 2, center_lat + 2) }
         = FetchOutcome.err sErr) :
    (update_steering_data fetch center_lat center_lon frame s).u_target
        = s.u_target ∧
    (update_steering_data fetch center_lat center_lon frame s).v_target
        = s.v_target ∧
    (update_steering_data fetch center_lat center_lon frame s).land_fraction
        = s.land_fraction := by
  simp [update_steering_data, h]

/-- Witness for C3: a concrete failing fetch that partially mutates the state
before raising; the three fields are restored to the pre-call values. -/
theorem update_steering_data_reverts_on_fetch_error_witness :
    (update_steering_data fetchFailEx 20 (-85) 42 diStateEx).u_target
        = [1, 2] ∧
    (update_steering_data fetchFailEx 20 (-85) 42 diStateEx).v_target = [3] ∧
    (update_steering_data fetchFailEx 20 (-85) 42 diStateEx).land_fraction
        = [1/2] :=
  update_steering_data_reverts_on_fetch_error fetchFailEx 20 (-85) 42
    diStateEx _ rfl

/-- Counterexample to claim C4 as stated: on frame 1 — a frame at which
`update` runs no sanity check — the theta-prime field reaches 100 K, which
exceeds max(|−50|, |50|) = 50 K, yet the run is not halted: the sanity check
only runs every 100 frames (line 2556), so the bound/halt disjunction fails
between checks. -/
theorem theta_bound_every_step_counterexample :
    (runTrace physSpike (-50) 50 ⟨[0], false⟩ 2).theta_prime = [100] ∧
    (runTrace physSpike (-50) 50 ⟨[0], false⟩ 2).emergency_halted = false ∧
    ¬ (|(100 : ℚ)| ≤ max |(-50 : ℚ)| |(50 : ℚ)|) := by
  decide

/-- Amended claim C4: at every frame t divisible by 100 (the frames where the
sanity check runs), after the step either every theta-prime value satisfies
|θ| ≤ max(|θ_min|, |θ_max|) or `emergency_halted` has been set during that
step; and once halted, every further update is a no-op (no further steps are
executed). -/
theorem theta_bound_at_checked_frames (phys : ℕ → List ℚ → List ℚ)
    (thetaMin thetaMax : ℚ) (s0 : ThetaSimState) (t : ℕ)
    (ht : t % 100 = 0) :
    ((∀ x ∈ (runTrace phys thetaMin thetaMax s0 (t + 1)).theta_prime,
        |x| ≤ max |thetaMin| |thetaMax|) ∨
      (runTrace phys thetaMin thetaMax s0 (t + 1)).emergency_halted = true) ∧
    (∀ (frame : ℕ) (s : ThetaSimState), s.emergency_halted = true →
      updateSkeleton phys thetaMin thetaMax frame s = s) := by
  constructor
  · have hrun : runTrace phys thetaMin thetaMax s0 (t + 1)
        = updateSkeleton phys thetaMin thetaMax t
            (runTrace phys thetaMin thetaMax s0 t) := rfl
    rw [hrun]
    generalize runTrace phys thetaMin thetaMax s0 t = s
    unfold updateSkeleton
    by_cases hh : s.emergency_halted = true
    · rw [if_pos hh]
      exact Or.inr hh
    · rw [if_neg hh]
      by_cases hc : sanity_check thetaMin thetaMax
        ⟨phys t s.theta_prime, false⟩ = true
      · have hcond : (t % 100 == 0 && ! sanity_check thetaMin thetaMax
            ⟨phys t s.theta_prime, false⟩) = false := by
          rw [hc]
          exact Bool.and_false _
        have hne : ¬ ((t % 100 == 0 && ! sanity_check thetaMin thetaMax
            ⟨phys t s.theta_prime, false⟩) = true) := by
          rw [hcond]
          exact Bool.false_ne_true
        rw [if_neg hne]
        left
        intro x hx
        simp only [sanity_check, Bool.and_eq_true, List.all_eq_true,
          decide_eq_true_eq] at hc
        have h1 : x ≤ thetaMax := hc.1 x hx
        have h2 : thetaMin ≤ x := hc.2 x hx
        rw [abs_le]
        constructor
        · have hm : |thetaMin| ≤ max |thetaMin| |thetaMax| := le_max_left _ _
          have := neg_abs_le thetaMin
          linarith
        · have hm : |thetaMax| ≤ max |thetaMin| |thetaMax| := le_max_right _ _
          have := le_abs_self thetaMax
          linarith
      · have hcf : sanity_check thetaMin thetaMax
            ⟨phys t s.theta_prime, false⟩ = false := by
          cases hb : sanity_check thetaMin thetaMax
            ⟨phys t s.theta_prime, false⟩
          · rfl
          · exact absurd hb hc
        have hcond : (t % 100 == 0 && ! sanity_check thetaMin thetaMax
            ⟨phys t s.theta_prime, false⟩) = true := by
          rw [ht, hcf]
          rfl
        rw [if_pos hcond]
        exact Or.inr rfl
  · intro frame s hhalt
    unfold updateSkeleton
    rw [if_pos hhalt]

/-- Witness for the amended C4: frame 0 is a checked frame; applying the
theorem there yields the bound/halt disjunction and the absorbing-halt
property. -/
theorem theta_bound_at_checked_frames_witness :
    ((∀ x ∈ (runTrace physSpike (-50) 50 ⟨[0], false⟩ 1).theta_prime,
        |x| ≤ max |(-50 : ℚ)| |(50 : ℚ)|) ∨
      (runTrace physSpike (-50) 50 ⟨[0], false⟩ 1).emergency_halted = true) ∧
    (∀ (frame : ℕ) (s : ThetaSimState), s.emergency_halted = true →
      updateSkeleton physSpike (-50) 50 frame s = s) :=
  theta_bound_at_checked_frames physSpike (-50) 50 ⟨[0], false⟩ 0 (by decide)

/-- Claim C9 (code bug): the configuration value `advection_order` is stored
on the Simulation3D object (line 638), but `CoreSolver.advect` reads the
attribute from the solver object, which never has it, so the order passed to
`map_coordinates` is always the fallback 3: configuring order 1 does not make
the interpolation linear. -/
theorem advect_order_ignores_configuration :
    simulationAdvectionOrder 1 = 1 ∧
    advectOrderUsed coreSolverInitObj = 3 ∧
    advectOrderUsed coreSolverInitObj ≠ 1 := by
  refine ⟨rfl, rfl, by decide⟩

/-- Counterexample to claim C8 as stated: with cached steering
v_steer = 1387.5 m/s (and u_steer = 0), the raw latitude increment is
1387.5 · 240 / 111000 = 3°; since 3 ≤ 5 the sanity branch (line 3140) does
not fire and the applied increment is 3° — the per-step increment is not
clamped at 1°. -/
theorem position_clamp_at_one_degree_counterexample :
    (positionIncrement 0 1387.5 25).1 = 3 ∧
    ¬ (|(positionIncrement 0 1387.5 25).1| ≤ 1) := by
  have hdlat : dlatRaw 1387.5 = 3 := by
    unfold dlatRaw dt_100frames dt_solver T_CHAR L_CHAR U_CHAR
    norm_num
  have hdlon : dlonRaw 0 25 = 0 := by
    unfold dlonRaw
    simp
  have h : positionIncrement 0 1387.5 25 = (3, 0) := by
    unfold positionIncrement
    rw [hdlat, hdlon]
    norm_num
  rw [h]
  norm_num

/-- Amended claim C8: every fine-interval update applies the increments
Δlat = v_steer·Δt/111000 and Δlon = u_steer·Δt/(111000·cos lat) unchanged
whenever both raw magnitudes are at most 5°, and clips both to [−1°, 1°]
only when one of them exceeds 5°; consequently each applied per-step
increment is bounded by 5° (not 1°). -/
theorem position_increment_bounds (uSteer vSteer lat : ℝ) :
    |(positionIncrement uSteer vSteer lat).1| ≤ 5 ∧
    |(positionIncrement uSteer vSteer lat).2| ≤ 5 ∧
    ((|dlatRaw vSteer| ≤ 5 ∧ |dlonRaw uSteer lat| ≤ 5) →
      positionIncrement uSteer vSteer lat
        = (dlatRaw vSteer, dlonRaw uSteer lat)) := by
  have habs : ∀ x : ℝ, |max (-1) (min 1 x)| ≤ 1 := by
    intro x
    rw [abs_le]
    exact ⟨le_max_left _ _, max_le (by norm_num) (min_le_left _ _)⟩
  unfold positionIncrement
  by_cases h : 5 < |dlatRaw vSteer| ∨ 5 < |dlonRaw uSteer lat|
  · rw [if_pos h]
    refine ⟨le_trans (habs _) (by norm_num),
            le_trans (habs _) (by norm_num), fun hb => ?_⟩
    rcases h with h | h
    · exact absurd hb.1 (not_le.mpr h)
    · exact absurd hb.2 (not_le.mpr h)
  · rw [if_neg h]
    push_neg at h
    exact ⟨h.1, h.2, fun _ => rfl⟩

/-- Witness for the amended C8: zero cached steering keeps both raw
increments at 0°, which pass through unchanged and are within the 5°
bound. -/
theorem position_increment_bounds_witness :
    |(positionIncrement 0 0 0).1| ≤ 5 ∧
    positionIncrement 0 0 0 = (dlatRaw 0, dlonRaw 0 0) := by
  have h := position_increment_bounds 0 0 0
  have hdlat : |dlatRaw 0| ≤ 5 := by
    unfold dlatRaw
    simp
  have hdlon : |dlonRaw 0 0| ≤ 5 := by
    unfold dlonRaw
    simp
  exact ⟨h.1, h.2.2 ⟨hdlat, hdlon⟩⟩


/-- Counterexample to claim C7 as stated: for concrete H3+ storm inputs
(120 m/s = 233.28 kt, H3+ mode active) the intensity factor evaluates to
clip(sqrt(120/30), 0.7, 1.5) = 1.5 — it is not forced to 1 — and the final
beta magnitude 2.1 m/s differs from the 1.4 m/s obtained when the intensity
factor is removed: in the source the intensity factor is not auto-disabled in
H3+ mode (H3+ disables the confidence weighting and basin damping instead). -/
theorem beta_intensity_not_disabled_in_h3_counterexample :
    h3Active steerInputsH3Ex = true ∧
    intensityFactorUsed steerInputsH3Ex = 1.5 ∧
    betaSpeedFinal steerInputsH3Ex = 2.1 ∧
    betaSpeedFinal
      { steerInputsH3Ex with intensity_scaling_enabled := false } = 1.4 ∧
    (2.1 : ℝ) ≠ 1.4 := by
  have hsqrt : Real.sqrt (4 : ℝ) = 2 := by
    rw [show (4 : ℝ) = 2 ^ 2 by norm_num]
    exact Real.sqrt_sq (by norm_num)
  refine ⟨?_, ?_, ?_, ?_, by norm_num⟩
  · norm_num [h3Active, h3NextState, maxWindKts, steerInputsH3Ex]
  · norm_num [intensityFactorUsed, steerInputsH3Ex, hsqrt, min_def, max_def]
  · norm_num [betaSpeedFinal, betaSpeedCapped, betaSpeedPreCap, betaLandScale,
      latFactor, latAbsClip, lonFactorUsed, intensityFactorUsed,
      combinedDamping, betaWeightUsed, basinFactorUsed, h3Active, h3NextState,
      maxWindKts, steerInputsH3Ex, hsqrt, min_def, max_def, abs_of_nonneg]
  · norm_num [betaSpeedFinal, betaSpeedCapped, betaSpeedPreCap, betaLandScale,
      latFactor, latAbsClip, lonFactorUsed, intensityFactorUsed,
      combinedDamping, betaWeightUsed, basinFactorUsed, h3Active, h3NextState,
      maxWindKts, steerInputsH3Ex, min_def, max_def, abs_of_nonneg]

/-- Amended claim C7: whenever intensity scaling is enabled the intensity
factor equals sqrt(max_wind/30) clipped to [0.7, 1.5] — also in H3+ mode;
what H3+ mode auto-disables is the confidence weighting and the basin
damping, whose factors then equal 1. -/
theorem h3_disables_confidence_and_basin_not_intensity (c : SteerInputs)
    (h : h3Active c = true) :
    betaWeightUsed c = 1 ∧ basinFactorUsed c = 1 ∧
    (c.intensity_scaling_enabled = true →
      intensityFactorUsed c
        = min 1.5 (max 0.7 (Real.sqrt (c.last_max_wind_ms / 30)))) := by
  refine ⟨?_, ?_, fun hi => ?_⟩
  · simp [betaWeightUsed, h]
  · simp [basinFactorUsed, h]
  · simp [intensityFactorUsed, hi]

/-- Witness for the amended C7 at the concrete H3+ inputs: both the
confidence weight and the basin factor equal 1 while the intensity factor is
the clipped square root. -/
theorem h3_disables_confidence_and_basin_not_intensity_witness :
    betaWeightUsed steerInputsH3Ex = 1 ∧
    basinFactorUsed steerInputsH3Ex = 1 ∧
    intensityFactorUsed steerInputsH3Ex
      = min 1.5 (max 0.7 (Real.sqrt
          (steerInputsH3Ex.last_max_wind_ms / 30))) := by
  have hh3 : h3Active steerInputsH3Ex = true := by
    norm_num [h3Active, h3NextState, maxWindKts, steerInputsH3Ex]
  have h := h3_disables_confidence_and_basin_not_intensity steerInputsH3Ex hh3
  exact ⟨h.1, h.2.1, h.2.2 rfl⟩

/-- Claim C10: with beta drift disabled, the steering calculation caches the
multiplied ERA5 vector unchanged (no Gulf westward cap, no recurve nudge):
the capping and recurve stages live inside the beta-drift block.  The floor
hypothesis excludes the independent steering-floor rescale. -/
theorem steering_without_beta_drift_passthrough (c : SteerInputs)
    (hb : c.beta_drift_enabled = false)
    (hfloor : c.steering_floor_ms ≤ preFloorSpeed c) :
    steeringCached c = (uSteerInit c, vSteerInit c) := by
  have hu : preFloorU c = uSteerInit c := by
    simp [preFloorU, hb]
  have hv : preFloorV c = vSteerInit c := by
    simp [preFloorV, hb]
  have hnot : ¬ (c.steering_floor_enabled = true ∧
      preFloorSpeed c < c.steering_floor_ms) := by
    rintro ⟨-, hlt⟩
    exact absurd hfloor (not_le.mpr hlt)
  unfold steeringCached
  rw [if_neg hnot, hu, hv]

/-- Witness for C10: a storm inside the Gulf box (25°N, 90°W) with
u_era5 = -10 m/s and beta drift disabled caches u_steer = -10 m/s, strictly
below the -3 m/s Gulf cap, with no recurve nudge on v. -/
theorem steering_without_beta_drift_passthrough_witness :
    steeringCached steerInputsGulfEx = (-10, 0) ∧
    ((-10 : ℝ) < -3) ∧ inGulf steerInputsGulfEx := by
  have hu : preFloorU steerInputsGulfEx = -10 := by
    norm_num [preFloorU, uSteerInit, steerInputsGulfEx]
  have hv : preFloorV steerInputsGulfEx = 0 := by
    norm_num [preFloorV, vSteerInit, steerInputsGulfEx]
  have hspeed : preFloorSpeed steerInputsGulfEx = 10 := by
    rw [preFloorSpeed, hu, hv]
    rw [show ((-10 : ℝ)) ^ 2 + (0 : ℝ) ^ 2 = 10 ^ 2 by norm_num]
    exact Real.sqrt_sq (by norm_num)
  have h := steering_without_beta_drift_passthrough steerInputsGulfEx rfl
    (by rw [hspeed]; norm_num [steerInputsGulfEx])
  refine ⟨?_, by norm_num, ?_⟩
  · rw [h]
    norm_num [uSteerInit, vSteerInit, steerInputsGulfEx]
  · norm_num [inGulf, latAbsClip, steerInputsGulfEx, min_def, max_def,
      abs_of_nonneg]

/-- Evaluation of the turn exponential at 0. -/
theorem cexp2pi_zero : cexp2pi 0 = 1 := by
  simp [cexp2pi]

/-- Evaluation of the turn exponential at a half turn. -/
theorem cexp2pi_half : cexp2pi (1 / 2) = -1 := by
  unfold cexp2pi
  rw [show ((2 * Real.pi * (1 / 2) : ℝ) : ℂ) = (Real.pi : ℂ) by
    push_cast; ring]
  exact Complex.exp_pi_mul_I

/-- Evaluation of the turn exponential at a quarter turn. -/
theorem cexp2pi_quarter : cexp2pi (1 / 4) = Complex.I := by
  unfold cexp2pi
  rw [Complex.exp_mul_I]
  rw [show ((2 * Real.pi * (1 / 4) : ℝ) : ℂ) = ((Real.pi / 2 : ℝ) : ℂ) by
    push_cast; ring]
  rw [← Complex.ofReal_cos, ← Complex.ofReal_sin]
  rw [Real.cos_pi_div_two, Real.sin_pi_div_two]
  simp

/-- Additivity of the turn exponential. -/
theorem cexp2pi_add (s t : ℝ) : cexp2pi (s + t) = cexp2pi s * cexp2pi t := by
  unfold cexp2pi
  rw [← Complex.exp_add]
  congr 1
  push_cast
  ring

/-- Negation of the turn exponential. -/
theorem cexp2pi_neg (s : ℝ) : cexp2pi (-s) = (cexp2pi s)⁻¹ := by
  unfold cexp2pi
  rw [← Complex.exp_neg]
  congr 1
  push_cast
  ring

/-- Evaluation of the turn exponential at minus a half turn. -/
theorem cexp2pi_neg_half : cexp2pi (-(1 / 2)) = -1 := by
  rw [cexp2pi_neg, cexp2pi_half]
  norm_num

/-- Evaluation of the turn exponential at three quarter turns. -/
theorem cexp2pi_three_quarter : cexp2pi (3 / 4) = -Complex.I := by
  rw [show (3 / 4 : ℝ) = 1 / 2 + 1 / 4 by norm_num, cexp2pi_add,
    cexp2pi_half, cexp2pi_quarter]
  ring

/-- Linearity of the inverse DFT in a constant factor. -/
theorem ifftn_const_mul (nx ny nz : ℕ) (cc : ℂ)
    (F : Fin nx → Fin ny → Fin nz → ℂ) (a : Fin nx) (b : Fin ny)
    (c : Fin nz) :
    ifftn nx ny nz (fun k1 k2 k3 => cc * F k1 k2 k3) a b c
      = cc * ifftn nx ny nz F a b c := by
  unfold ifftn
  rw [mul_div_assoc']
  congr 1
  rw [Finset.mul_sum]
  refine Finset.sum_congr rfl fun k1 _ => ?_
  rw [Finset.mul_sum]
  refine Finset.sum_congr rfl fun k2 _ => ?_
  rw [Finset.mul_sum]
  refine Finset.sum_congr rfl fun k3 _ => ?_
  ring

/-- Relation between the spec gradient (2π-scaled wavenumbers) and the
source gradient (unscaled wavenumbers). -/
theorem specGradient_two_pi (nx ny nz : ℕ) (dx : ℝ)
    (f : Fin nx → Fin ny → Fin nz → ℝ)
    (a : Fin nx) (b : Fin ny) (c : Fin nz) :
    specGradient_x nx ny nz dx f a b c
      = 2 * Real.pi * gradient_x nx ny nz dx f a b c := by
  unfold specGradient_x gradient_x
  have h : (fun (k1 : Fin nx) (k2 : Fin ny) (k3 : Fin nz) =>
      Complex.I * ((specFreq nx dx (k1 : ℕ) : ℝ) : ℂ) *
        fftn nx ny nz (fun p q r => ((f p q r : ℝ) : ℂ)) k1 k2 k3)
      = fun (k1 : Fin nx) (k2 : Fin ny) (k3 : Fin nz) =>
        ((2 * Real.pi : ℝ) : ℂ) *
          (Complex.I * ((fftfreq nx dx (k1 : ℕ) : ℝ) : ℂ) *
            fftn nx ny nz (fun p q r => ((f p q r : ℝ) : ℂ)) k1 k2 k3) := by
    funext k1 k2 k3
    unfold specFreq
    push_cast
    ring
  rw [h, ifftn_const_mul]
  rw [Complex.re_ofReal_mul]

/-- Relation between the spec Laplacian (2π-scaled wavenumbers) and the
source Laplacian (unscaled wavenumbers). -/
theorem specLaplacian_four_pi_sq (nx ny nz : ℕ) (dx dy dz : ℝ)
    (f : Fin nx → Fin ny → Fin nz → ℝ)
    (a : Fin nx) (b : Fin ny) (c : Fin nz) :
    specLaplacian nx ny nz dx dy dz f a b c
      = (2 * Real.pi) ^ 2 * laplacianF nx ny nz dx dy dz f a b c := by
  unfold specLaplacian laplacianF
  have h : (fun (k1 : Fin nx) (k2 : Fin ny) (k3 : Fin nz) =>
      -(((specFreq nx dx (k1 : ℕ) ^ 2 + specFreq ny dy (k2 : ℕ) ^ 2 +
          specFreq nz dz (k3 : ℕ) ^ 2 : ℝ)) : ℂ) *
        fftn nx ny nz (fun p q r => ((f p q r : ℝ) : ℂ)) k1 k2 k3)
      = fun (k1 : Fin nx) (k2 : Fin ny) (k3 : Fin nz) =>
        (((2 * Real.pi) ^ 2 : ℝ) : ℂ) *
          (-((k_squared nx ny nz dx dy dz k1 k2 k3 : ℝ) : ℂ) *
            fftn nx ny nz (fun p q r => ((f p q r : ℝ) : ℂ)) k1 k2 k3) := by
    funext k1 k2 k3
    unfold specFreq k_squared
    push_cast
    ring
  rw [h, ifftn_const_mul]
  rw [Complex.re_ofReal_mul]

/-- Forward DFT of the delta field is identically 1. -/
theorem fftn_delta (k1 : Fin 4) (k2 k3 : Fin 1) :
    fftn 4 1 1 (fun p q r => ((deltaField p q r : ℝ) : ℂ)) k1 k2 k3 = 1 := by
  unfold fftn deltaField
  rw [Fin.sum_univ_four]
  simp [Fin.sum_univ_one, cexp2pi_zero]

/-- Concrete evaluation of the source gradient on the 4-point grid with the
program spacing dx = 1/4: the x-gradient of the delta field at index 1 is
-1/2. -/
theorem gradient_x_delta_value :
    gradient_x 4 1 1 (1 / 4) deltaField 1 0 0 = -(1 / 2) := by
  unfold gradient_x
  unfold ifftn
  simp only [fftn_delta, mul_one]
  rw [Fin.sum_univ_four]
  simp only [Fin.sum_univ_one]
  have h3 : ((3 : Fin 4) : ℕ) = 3 := rfl
  norm_num [h3, fftfreq, cexp2pi_zero, cexp2pi_quarter, cexp2pi_half,
    cexp2pi_three_quarter]

/-- Counterexample to claim C2 as stated: on the 4 × 1 × 1 grid with
dx = 1/4 (the program value for nx = 4), the source gradient of the delta
field at index 1 is -1/2 while the spec formula with k_x = 2π·fftfreq gives
2π · (-1/2) = -π: the source wavenumbers are missing the 2π factor. -/
theorem spectral_gradient_two_pi_counterexample :
    gradient_x 4 1 1 (1 / 4) deltaField 1 0 0
      ≠ specGradient_x 4 1 1 (1 / 4) deltaField 1 0 0 := by
  rw [specGradient_two_pi, gradient_x_delta_value]
  intro h
  nlinarith [Real.pi_gt_three]

/-- Amended claim C2: the source builds its wavenumbers from plain
`fftfreq` without the 2π factor; consequently the operator the spec
describes (with k = 2π·fftfreq) equals 2π times the source gradient, and
(2π)² times the source Laplacian, on every field and every grid. -/
theorem spectral_operators_unscaled_wavenumbers (nx ny nz : ℕ)
    (dx dy dz : ℝ) (f : Fin nx → Fin ny → Fin nz → ℝ)
    (a : Fin nx) (b : Fin ny) (c : Fin nz) :
    specGradient_x nx ny nz dx f a b c
      = 2 * Real.pi * gradient_x nx ny nz dx f a b c ∧
    specLaplacian nx ny nz dx dy dz f a b c
      = (2 * Real.pi) ^ 2 * laplacianF nx ny nz dx dy dz f a b c :=
  ⟨specGradient_two_pi nx ny nz dx f a b c,
   specLaplacian_four_pi_sq nx ny nz dx dy dz f a b c⟩

/-- Inverse DFT of the zero spectrum is zero. -/
theorem ifftn_zero_fn (nx ny nz : ℕ) (a : Fin nx) (b : Fin ny) (c : Fin nz) :
    ifftn nx ny nz (fun _ _ _ => (0 : ℂ)) a b c = 0 := by
  simp [ifftn]

/-- With a single cell along y the y-wavenumber is 0, so the spectral
y-gradient of any field vanishes. -/
theorem gradient_y_one (nx nz : ℕ) (dy : ℝ) (f : Fin nx → Fin 1 → Fin nz → ℝ)
    (a : Fin nx) (b : Fin 1) (c : Fin nz) :
    gradient_y nx 1 nz dy f a b c = 0 := by
  unfold gradient_y
  have h : (fun (k1 : Fin nx) (k2 : Fin 1) (k3 : Fin nz) =>
      Complex.I * ((fftfreq 1 dy (k2 : ℕ) : ℝ) : ℂ) *
        fftn nx 1 nz (fun p q r => ((f p q r : ℝ) : ℂ)) k1 k2 k3)
      = fun _ _ _ => (0 : ℂ) := by
    funext k1 k2 k3
    have hk : (k2 : ℕ) = 0 := by omega
    rw [hk]
    simp [fftfreq]
  rw [h, ifftn_zero_fn]
  simp

/-- With a single cell along z the spectral z-gradient of any field
vanishes. -/
theorem gradient_z_one (nx ny : ℕ) (dz : ℝ) (f : Fin nx → Fin ny → Fin 1 → ℝ)
    (a : Fin nx) (b : Fin ny) (c : Fin 1) :
    gradient_z nx ny 1 dz f a b c = 0 := by
  unfold gradient_z
  have h : (fun (k1 : Fin nx) (k2 : Fin ny) (k3 : Fin 1) =>
      Complex.I * ((fftfreq 1 dz (k3 : ℕ) : ℝ) : ℂ) *
        fftn nx ny 1 (fun p q r => ((f p q r : ℝ) : ℂ)) k1 k2 k3)
      = fun _ _ _ => (0 : ℂ) := by
    funext k1 k2 k3
    have hk : (k3 : ℕ) = 0 := by omega
    rw [hk]
    simp [fftfreq]
  rw [h, ifftn_zero_fn]
  simp

/-- On a 2-point x-axis the spectral x-gradient of every real field is
identically zero: only the 0 and Nyquist modes exist and the real part of
the Nyquist derivative vanishes. -/
theorem gradient_x_two_zero (dx : ℝ) (f : Fin 2 → Fin 1 → Fin 1 → ℝ)
    (a : Fin 2) (b c : Fin 1) :
    gradient_x 2 1 1 dx f a b c = 0 := by
  unfold gradient_x ifftn fftn
  fin_cases a <;> fin_cases b <;> fin_cases c <;>
    · simp only [Fin.sum_univ_two, Fin.sum_univ_one]
      norm_num [cexp2pi_zero, cexp2pi_half, cexp2pi_neg_half,
        Complex.div_re, Complex.add_re, Complex.add_im, Complex.mul_re,
        Complex.mul_im, Complex.I_re, Complex.I_im, Complex.ofReal_re,
        Complex.ofReal_im, Complex.normSq]

/-- Mean of the antisymmetric test field is zero. -/
theorem meanF_uFieldEx : meanF 2 1 1 uFieldEx = 0 := by
  simp [meanF, Fin.sum_univ_two, Fin.sum_univ_one, uFieldEx]

/-- Mean of the zero test field is zero. -/
theorem meanF_zeroFieldEx : meanF 2 1 1 zeroFieldEx = 0 := by
  simp [meanF, Fin.sum_univ_two, Fin.sum_univ_one, zeroFieldEx]

/-- Pressure correction leaves the antisymmetric test u unchanged: its mean
is zero and the x-gradient vanishes identically on the 2-point axis. -/
theorem corrU_ex (dy dz : ℝ) :
    corrU 2 1 1 (1 / 2) dy dz 1 1 uFieldEx zeroFieldEx zeroFieldEx
      = uFieldEx := by
  funext a b c
  unfold corrU
  rw [gradient_x_two_zero]
  unfold fluct
  rw [meanF_uFieldEx]
  ring

/-- Pressure correction leaves the zero test v at zero. -/
theorem corrV_ex (dy dz : ℝ) :
    corrV 2 1 1 (1 / 2) dy dz 1 1 uFieldEx zeroFieldEx zeroFieldEx
      = zeroFieldEx := by
  funext a b c
  unfold corrV
  rw [gradient_y_one]
  unfold fluct
  rw [meanF_zeroFieldEx]
  simp [zeroFieldEx]

/-- Pressure correction leaves the zero test w at zero. -/
theorem corrW_ex (dy dz : ℝ) :
    corrW 2 1 1 (1 / 2) dy dz 1 1 uFieldEx zeroFieldEx zeroFieldEx
      = zeroFieldEx := by
  funext a b c
  unfold corrW
  rw [gradient_z_one]
  unfold fluct
  rw [meanF_zeroFieldEx]
  simp [zeroFieldEx]

/-- Magnitude of a vector with two zero components. -/
theorem sqrt_sq_add_zeros (x : ℝ) :
    Real.sqrt (x ^ 2 + 0 ^ 2 + 0 ^ 2) = |x| := by
  rw [show x ^ 2 + 0 ^ 2 + 0 ^ 2 = x ^ 2 by ring, Real.sqrt_sq_eq_abs]

/-- Square root of the literal 1156. -/
theorem sqrt_lit_1156 : Real.sqrt 1156 = 34 := by
  rw [show (1156 : ℝ) = 34 ^ 2 by norm_num]
  exact Real.sqrt_sq (by norm_num)

/-- Square root of the literal 25. -/
theorem sqrt_lit_25 : Real.sqrt 25 = 5 := by
  rw [show (25 : ℝ) = 5 ^ 2 by norm_num]
  exact Real.sqrt_sq (by norm_num)

/-- Square root of the literal 48841. -/
theorem sqrt_lit_48841 : Real.sqrt 48841 = 221 := by
  rw [show (48841 : ℝ) = 221 ^ 2 by norm_num]
  exact Real.sqrt_sq (by norm_num)

/-- Square root of the literal 2500. -/
theorem sqrt_lit_2500 : Real.sqrt 2500 = 50 := by
  rw [show (2500 : ℝ) = 50 ^ 2 by norm_num]
  exact Real.sqrt_sq (by norm_num)

/-- Per-cell speed of the antisymmetric test velocity is 6.8. -/
theorem velMag_uEx :
    velMag 2 1 1 uFieldEx zeroFieldEx zeroFieldEx
      = fun _ _ _ => (34 / 5 : ℝ) := by
  funext a b c
  fin_cases a <;>
    · simp only [velMag, uFieldEx, zeroFieldEx]
      norm_num [sqrt_sq_add_zeros, sqrt_lit_1156, sqrt_lit_25]

/-- Grid maximum of a constant field on the 2 × 1 × 1 grid. -/
theorem maxOver_const (c : ℝ) : maxOver 2 1 1 (fun _ _ _ => c) = c := by
  unfold maxOver
  exact Finset.sup'_const _ _

/-- Peak physical spin of the test velocity is 170 m/s. -/
theorem maxSpin_uEx :
    maxSpinMs 2 1 1 25 uFieldEx zeroFieldEx zeroFieldEx = 170 := by
  unfold maxSpinMs
  rw [velMag_uEx, maxOver_const]
  norm_num

/-- Progressive damping factor at 170 m/s is 0.65. -/
theorem emergencyDamping_170 : emergencyDamping 170 = 13 / 20 := by
  unfold emergencyDamping
  norm_num [min_def]

/-- Soft-damped test u is 0.65 times the input. -/
theorem dampedU_ex :
    dampedU 2 1 1 25 uFieldEx zeroFieldEx zeroFieldEx
      = fun a b c => (13 / 20 : ℝ) * uFieldEx a b c := by
  funext a b c
  unfold dampedU
  rw [maxSpin_uEx, emergencyDamping_170]

/-- Soft-damped test v stays zero. -/
theorem dampedV_ex :
    dampedV 2 1 1 25 uFieldEx zeroFieldEx zeroFieldEx = zeroFieldEx := by
  funext a b c
  unfold dampedV
  rw [maxSpin_uEx]
  simp [zeroFieldEx]

/-- Soft-damped test w stays zero. -/
theorem dampedW_ex :
    dampedW 2 1 1 25 uFieldEx zeroFieldEx zeroFieldEx = zeroFieldEx := by
  funext a b c
  unfold dampedW
  rw [maxSpin_uEx]
  simp [zeroFieldEx]

/-- Per-cell speed of the damped test velocity is 4.42. -/
theorem velMag_damped :
    velMag 2 1 1 (fun a b c => (13 / 20 : ℝ) * uFieldEx a b c)
      zeroFieldEx zeroFieldEx = fun _ _ _ => (221 / 50 : ℝ) := by
  funext a b c
  fin_cases a <;>
    · simp only [velMag, uFieldEx, zeroFieldEx]
      norm_num [sqrt_sq_add_zeros, sqrt_lit_48841, sqrt_lit_2500]

/-- Peak physical spin after damping is 110.5 m/s. -/
theorem maxSpin_damped :
    maxSpinMs 2 1 1 25 (fun a b c => (13 / 20 : ℝ) * uFieldEx a b c)
      zeroFieldEx zeroFieldEx = 221 / 2 := by
  unfold maxSpinMs
  rw [velMag_damped, maxOver_const]
  norm_num

/-- Both governor stages fire on the test velocity: the returned cell value
is the input scaled by the 0.65 damping and then by the 95 m/s magnitude
clamp. -/
theorem governorU_ex :
    governorU 2 1 1 25 uFieldEx zeroFieldEx zeroFieldEx 0 0 0
      = 95 / (221 / 2 + 1e-12) * (13 / 20 * (34 / 5)) := by
  unfold governorU
  rw [maxSpin_uEx, if_pos (by norm_num : (85 : ℝ) < 170)]
  rw [dampedU_ex, dampedV_ex, dampedW_ex, maxSpin_damped,
    if_pos (by norm_num : (95 : ℝ) < 221 / 2)]
  show clampScale 2 1 1 25 _ _ _ 0 0 0 * _ = _
  unfold clampScale
  rw [velMag_damped]
  norm_num [uFieldEx]

/-- Claim C1 (code bug): `project` applies the velocity governor
unconditionally — the embedded `project`, like the source, consults no
configuration flag, so the behaviour is the same whether or not
`no_velocity_governor` is set.  On the divergence-free zero-mean test
velocity u = ±6.8 (±170 m/s with U_CHAR = 25), v = w = 0, where projection
alone would return u unchanged, the returned cell value is the input damped
by 0.65 and clamped toward 95 m/s, strictly below the input 6.8. -/
theorem project_velocity_governor_unconditional :
    projectU 2 1 1 (1 / 2) 1 (1 / 100) 1 25 1 1 false 0 0
        uFieldEx zeroFieldEx zeroFieldEx 0 0 0
      = 95 / (221 / 2 + 1e-12) * (13 / 20 * (34 / 5)) ∧
    projectU 2 1 1 (1 / 2) 1 (1 / 100) 1 25 1 1 false 0 0
        uFieldEx zeroFieldEx zeroFieldEx 0 0 0 < uFieldEx 0 0 0 := by
  have hval : projectU 2 1 1 (1 / 2) 1 (1 / 100) 1 25 1 1 false 0 0
      uFieldEx zeroFieldEx zeroFieldEx 0 0 0
      = 95 / (221 / 2 + 1e-12) * (13 / 20 * (34 / 5)) := by
    unfold projectU
    rw [corrU_ex, corrV_ex, corrW_ex, governorU_ex, meanF_uFieldEx]
    norm_num
  refine ⟨hval, ?_⟩
  rw [hval]
  norm_num [uFieldEx]
